import Mathlib

/-!
Verification development for the bread-recipes application.

The domain logic lives in `components/RecipeView.tsx` (the baker-percentage
scaling engine and the ingredient mutation handlers), `App.tsx` (save, delete
and AI-import of user recipes against a per-user persisted store), and
`services/geminiService.ts` (validation of the AI adapter output).
Numbers are modelled as rationals; JavaScript arrays of ingredients as lists.
-/

namespace BreadRecipes

/-- A recipe line item (`types.ts` interface `Ingredient`): an ingredient name
and its baker percentage relative to total flour weight. -/
structure Ingredient where
  name : String
  percentage : ℚ
deriving DecidableEq, Repr

/-- A bread recipe (`types.ts` interface `Recipe`). The optional
`isStandard?: boolean` field is modelled as a `Bool` (absent ≡ `false`,
matching JavaScript truthiness of `undefined`). -/
structure Recipe where
  id : String
  name : String
  description : String
  totalFlourGrams : ℚ
  ingredients : List Ingredient
  isStandard : Bool
deriving DecidableEq, Repr

/-- `ingredients.reduce((acc, ing) => acc + ing.percentage, 0)` — the sum of
baker percentages, as computed (via `foldl`) at `RecipeView.tsx:42`,
`RecipeView.tsx:27` and `RecipeView.tsx:60`. -/
def sumPercentages (l : List Ingredient) : ℚ :=
  l.foldl (fun acc ing => acc + ing.percentage) 0

/-- The derived total dough weight (`RecipeView.tsx:41-44`):
`(totalPercentage / 100) * editedRecipe.totalFlourGrams`. -/
def totalDoughWeight (r : Recipe) : ℚ :=
  (sumPercentages r.ingredients / 100) * r.totalFlourGrams

/-- Per-ingredient weight in grams (`RecipeView.tsx:207`, also
`geminiService.ts:118`): `(ing.percentage / 100) * totalFlourGrams`. -/
def ingredientGrams (r : Recipe) (ing : Ingredient) : ℚ :=
  (ing.percentage / 100) * r.totalFlourGrams

/-- The effect on the working edit copy when a recipe is opened in the detail
view (`RecipeView.tsx:23-37`): deep-copy the recipe and, when the percentage
sum is positive, rescale `totalFlourGrams` to a default 1000 g dough weight. -/
def initEditedRecipe (r : Recipe) : Recipe :=
  let totalPercentage := sumPercentages r.ingredients
  if totalPercentage > 0 then
    { r with totalFlourGrams := (1000 / totalPercentage) * 100 }
  else
    r

/-- `handleTotalDoughWeightChange` (`RecipeView.tsx:57-69`), the spec operation
`rescaleToDoughWeight`: no-op when read-only (`isReadOnly` is
`recipe.isStandard`, `RecipeView.tsx:39`); the desired weight is clamped with
`Math.max(0, ·)`; when the percentage sum is positive, `totalFlourGrams`
becomes `(newDoughWeight / totalPercentage) * 100`, else no-op. -/
def rescaleToDoughWeight (r : Recipe) (desiredDoughWeight : ℚ) : Recipe :=
  if r.isStandard then r
  else
    let newDoughWeight := max 0 desiredDoughWeight
    let totalPercentage := sumPercentages r.ingredients
    if totalPercentage > 0 then
      { r with totalFlourGrams := (newDoughWeight / totalPercentage) * 100 }
    else
      r

/-- `handleIngredientChange` (`RecipeView.tsx:71-82`) specialized to the
`percentage` field — the spec operation `setIngredientPercentage`. No-op when
read-only. The JavaScript body never bounds-checks `index`:
for an in-range index the percentage of the entry is replaced by
`Math.max(0, Number(value))`; for a negative index the assignment
`newIngredients[index] = ...` creates a non-index property, leaving the
ingredient sequence unchanged; for an index past the end JavaScript extends
the array with holes and a name-less object — a state outside the `Recipe`
data model, approximated here by empty-named entries (no theorem below
depends on that branch). -/
def setIngredientPercentage (r : Recipe) (index : ℤ) (value : ℚ) : Recipe :=
  if r.isStandard then r
  else if index < 0 then r
  else if index < r.ingredients.length then
    let i := index.toNat
    let old := r.ingredients.getD i ⟨"", 0⟩
    { r with ingredients := r.ingredients.set i { old with percentage := max 0 value } }
  else
    { r with ingredients :=
        r.ingredients
          ++ List.replicate (index.toNat - r.ingredients.length) ⟨"", 0⟩
          ++ [⟨"", max 0 value⟩] }

/-- `ingredients.filter((_, i) => i !== index)` with the running element
position made explicit (the counter starts at 0, as in `Array.prototype.filter`). -/
def filterIndexNe : List Ingredient → ℤ → ℤ → List Ingredient
  | [], _, _ => []
  | x :: xs, i, index =>
      if i ≠ index then x :: filterIndexNe xs (i + 1) index
      else filterIndexNe xs (i + 1) index

/-- `removeIngredient` (`RecipeView.tsx:93-99`): no-op when read-only, else
keep exactly the entries whose position differs from `index`. -/
def removeIngredient (r : Recipe) (index : ℤ) : Recipe :=
  if r.isStandard then r
  else { r with ingredients := filterIndexNe r.ingredients 0 index }

/-- `addIngredient` (`RecipeView.tsx:84-91`): no-op when read-only, else
append the fixed default entry with name "Water" and percentage 0 — the
handler takes no name argument. -/
def addIngredient (r : Recipe) : Recipe :=
  if r.isStandard then r
  else { r with ingredients := r.ingredients ++ [⟨"Water", 0⟩] }

/-- The scenario recipe of the spec (§8): `totalFlourGrams = 1000`,
ingredients White Flour 90 / Water 75 / Salt 2, user-owned. -/
def scenarioRecipe : Recipe :=
  { id := "user-1"
    name := "Scenario"
    description := ""
    totalFlourGrams := 1000
    ingredients := [⟨"White Flour", 90⟩, ⟨"Water", 75⟩, ⟨"Salt", 2⟩]
    isStandard := false }

/-- A user recipe with no ingredients. -/
def emptyRecipe : Recipe :=
  { id := "user-2"
    name := "Empty"
    description := ""
    totalFlourGrams := 700
    ingredients := []
    isStandard := false }

/-- The first built-in standard recipe (`data/standardRecipes.ts`, `std-1`). -/
def stdRecipe : Recipe :=
  { id := "std-1"
    name := "Artisanal Sourdough"
    description := "A classic, open-crumb sourdough with a crispy crust. Perfect for toast or sandwiches."
    totalFlourGrams := 1000
    ingredients :=
      [⟨"White Flour", 90⟩, ⟨"Whole Wheat Flour", 10⟩, ⟨"Water", 75⟩,
       ⟨"Sourdough Levain", 20⟩, ⟨"Salt", 2.2⟩]
    isStandard := true }

/-- A signed-in user (`types.ts` interface `User`). -/
structure User where
  id : String
  name : String
  email : String
  picture : String
deriving DecidableEq, Repr

/-- The persisted local store: association list from storage key to the
stored user-recipe list (`localStorage` restricted to the recipe keys). -/
def Store := List (String × List Recipe)
deriving DecidableEq

/-- `localStorage.setItem` on the store model: bind `k` to `v`. -/
def setItem (st : Store) (k : String) (v : List Recipe) : Store :=
  (k, v) :: (st.filter (fun p => p.1 ≠ k))

/-- `localStorage.getItem` on the store model. -/
def getItem (st : Store) (k : String) : Option (List Recipe) :=
  ((st : List (String × List Recipe)).find? (fun p => p.1 == k)).map Prod.snd

/-- The per-user persistence key (`App.tsx:67,78`): backtick-template
`userRecipes-` followed by the user id. -/
def storageKey (u : User) : String :=
  "userRecipes-" ++ u.id

/-- The application state relevant to save / delete / import: the in-memory
recipe list, the signed-in user (if any), and the persisted store.
Pure view-navigation state (`view`, `selectedRecipe`) is omitted. -/
structure AppState where
  recipes : List Recipe
  user : Option User
  store : Store
deriving DecidableEq

/-- `saveUserRecipes` (`App.tsx:76-79`): persist the given user-recipe list
under the key of the current user; no-op when no user is signed in. -/
def saveUserRecipes (st : Store) (userRecipes : List Recipe) (currentUser : Option User) : Store :=
  match currentUser with
  | none => st
  | some u => setItem st (storageKey u) userRecipes

/-- `handleSaveRecipe` (`App.tsx:91-101`). When no user is signed in it
alerts "Please log in to save changes." and returns; otherwise it replaces
the recipe with the matching id and re-persists the non-standard recipes.
The second component is the alert message shown, if any. -/
def handleSaveRecipe (s : AppState) (updatedRecipe : Recipe) : AppState × Option String :=
  match s.user with
  | none => (s, some "Please log in to save changes.")
  | some u =>
    let newRecipes := s.recipes.map (fun r => if r.id = updatedRecipe.id then updatedRecipe else r)
    let userRecipes := newRecipes.filter (fun r => !r.isStandard)
    ({ s with recipes := newRecipes,
              store := saveUserRecipes s.store userRecipes (some u) }, none)

/-- `handleDeleteRecipe` (`App.tsx:103-113`). No-op when no user is signed
in; otherwise every recipe with the given id is filtered out of the
in-memory list and the non-standard remainder is re-persisted. -/
def handleDeleteRecipe (s : AppState) (recipeId : String) : AppState :=
  match s.user with
  | none => s
  | some u =>
    let newRecipes := s.recipes.filter (fun r => r.id ≠ recipeId)
    let userRecipes := newRecipes.filter (fun r => !r.isStandard)
    { s with recipes := newRecipes,
             store := saveUserRecipes s.store userRecipes (some u) }

/-- The payload of a successful AI import: a recipe without `id` and
`isStandard` (the TypeScript Omit of those two fields). -/
structure ImportedRecipeData where
  name : String
  description : String
  totalFlourGrams : ℚ
  ingredients : List Ingredient
deriving DecidableEq, Repr

/-- `handleImportSuccess` (`App.tsx:115-133`). When no user is signed in it
alerts "Please log in to import and save a new recipe." and returns;
otherwise a new non-standard recipe with id `user-` ++ `Date.now()` is
appended and the non-standard recipes are re-persisted (`now` stands for
the `Date.now()` timestamp). The second component is the alert shown, if any. -/
def handleImportSuccess (s : AppState) (d : ImportedRecipeData) (now : ℕ) : AppState × Option String :=
  match s.user with
  | none => (s, some "Please log in to import and save a new recipe.")
  | some u =>
    let newRecipe : Recipe :=
      { id := "user-" ++ toString now
        name := d.name
        description := d.description
        totalFlourGrams := d.totalFlourGrams
        ingredients := d.ingredients
        isStandard := false }
    let newRecipes := s.recipes ++ [newRecipe]
    let userRecipes := newRecipes.filter (fun r => !r.isStandard)
    ({ s with recipes := newRecipes,
              store := saveUserRecipes s.store userRecipes (some u) }, none)

/-- A JavaScript/JSON value, as far as the adapter-output validation at
`geminiService.ts:93` inspects it. -/
inductive JSVal where
  | vnull
  | vundef
  | vbool (b : Bool)
  | vnum (q : ℚ)
  | vstr (s : String)
  | varr (elems : List JSVal)
  | vobj (fields : List (String × JSVal))

/-- JavaScript truthiness (`!x` is the negation of this). -/
def JSVal.truthy : JSVal → Bool
  | .vnull => false
  | .vundef => false
  | .vbool b => b
  | .vnum q => q ≠ 0
  | .vstr s => s ≠ ""
  | .varr _ => true
  | .vobj _ => true

/-- The JavaScript typeof-number test. -/
def JSVal.isNumber : JSVal → Bool
  | .vnum _ => true
  | _ => false

/-- `Array.isArray(x)`. -/
def JSVal.isArray : JSVal → Bool
  | .varr _ => true
  | _ => false

/-- The `JSON.parse` result of the AI response, before validation: the four
schema fields, each still an arbitrary JavaScript value (a missing field
reads as `vundef`). -/
structure ParsedRecipe where
  name : JSVal
  description : JSVal
  totalFlourGrams : JSVal
  ingredients : JSVal

/-- The validation applied to adapter output (`geminiService.ts:92-95`):
throw when the name is falsy, or `totalFlourGrams` is not a number, or
`ingredients` is not an array; else the parsed
recipe is returned as-is. -/
def validateParsedRecipe (p : ParsedRecipe) : Except String ParsedRecipe :=
  if !p.name.truthy || !p.totalFlourGrams.isNumber || !p.ingredients.isArray then
    Except.error "AI model returned a response with an invalid format."
  else
    Except.ok p

/-- The demo user for concrete states. -/
def demoUser : User :=
  { id := "u1", name := "Ada", email := "ada@example.com", picture := "pic" }

/-- A persisted user recipe. -/
def userRecipe : Recipe :=
  { id := "user-7"
    name := "Mine"
    description := ""
    totalFlourGrams := 500
    ingredients := [⟨"White Flour", 100⟩, ⟨"Water", 70⟩]
    isStandard := false }

/-- A signed-in application state whose store matches its recipe list. -/
def demoState : AppState :=
  { recipes := [stdRecipe, userRecipe]
    user := some demoUser
    store := [("userRecipes-u1", [userRecipe])] }

/-- A signed-out application state. -/
def guestState : AppState :=
  { recipes := [stdRecipe], user := none, store := [] }

/-- A sample import payload. -/
def demoImport : ImportedRecipeData :=
  { name := "Imported"
    description := "An imported loaf."
    totalFlourGrams := 600
    ingredients := [⟨"White Flour", 100⟩, ⟨"Water", 65⟩] }

/-- Adapter output whose `totalFlourGrams` is a negative number. -/
def negativeFlourParsed : ParsedRecipe :=
  { name := JSVal.vstr "Bread"
    description := JSVal.vstr "A loaf."
    totalFlourGrams := JSVal.vnum (-5)
    ingredients := JSVal.varr [] }

/-- Adapter output with an empty name (the spec scenario). -/
def emptyNameParsed : ParsedRecipe :=
  { name := JSVal.vstr ""
    description := JSVal.vstr "desc"
    totalFlourGrams := JSVal.vnum 1000
    ingredients := JSVal.varr [] }

/-- `filterIndexNe` keeps every element when the target position lies outside
the range of positions the traversal assigns. -/
lemma filterIndexNe_of_lt (l : List Ingredient) (i index : ℤ) (h : index < i) :
    filterIndexNe l i index = l := by
  induction l generalizing i with
  | nil => rfl
  | cons x xs ih =>
    have hne : i ≠ index := by omega
    simp only [filterIndexNe, if_pos hne]
    rw [ih (i + 1) (by omega)]

/-- `filterIndexNe` keeps every element when the target position lies at or
past the end of the traversal. -/
lemma filterIndexNe_of_ge (l : List Ingredient) (i index : ℤ) (h : i + l.length ≤ index) :
    filterIndexNe l i index = l := by
  induction l generalizing i with
  | nil => rfl
  | cons x xs ih =>
    have hne : i ≠ index := by
      simp [List.length_cons] at h
      omega
    simp only [filterIndexNe, if_pos hne]
    rw [ih (i + 1) (by simp [List.length_cons] at h; omega)]

/-- Looking up the key just written returns the written value. -/
lemma getItem_setItem (st : Store) (k : String) (v : List Recipe) :
    getItem (setItem st k v) k = some v := by
  simp [getItem, setItem, List.find?]

/-- The percentage sum of `scenarioRecipe` is 167. -/
lemma sumPercentages_scenario : sumPercentages scenarioRecipe.ingredients = 167 := by
  norm_num [sumPercentages, scenarioRecipe, List.foldl]

/-- C1: for every recipe, `totalDoughWeight` equals
`(sum of ingredient percentages / 100) * totalFlourGrams`; it is 0 on an
empty ingredient list; and on the spec scenario recipe
(`totalFlourGrams = 1000`, White Flour 90 / Water 75 / Salt 2) it is 1670. -/
theorem c1_total_dough_weight (r : Recipe) :
    totalDoughWeight r = sumPercentages r.ingredients / 100 * r.totalFlourGrams ∧
    (r.ingredients = [] → totalDoughWeight r = 0) ∧
    totalDoughWeight scenarioRecipe = 1670 := by
  refine ⟨rfl, ?_, ?_⟩
  · intro h
    simp [totalDoughWeight, h, sumPercentages]
  · norm_num [totalDoughWeight, sumPercentages, scenarioRecipe, List.foldl]

/-- C1 witness: the dough weight of a concrete empty-ingredient recipe is 0. -/
theorem c1_witness : totalDoughWeight emptyRecipe = 0 :=
  (c1_total_dough_weight emptyRecipe).2.1 rfl

/-- C2 counterexample: the claim quantifies over every recipe with positive
percentage sum, but `rescaleToDoughWeight` (the `handleTotalDoughWeightChange`
handler) is a no-op on standard recipes: rescaling the built-in `std-1`
recipe (percentage sum 197.2 > 0) to 835 leaves `totalFlourGrams` at 1000
instead of the claimed `(835 / 197.2) * 100`. -/
theorem c2_counterexample :
    ¬ (rescaleToDoughWeight stdRecipe 835).totalFlourGrams
        = 835 / sumPercentages stdRecipe.ingredients * 100 := by
  norm_num [rescaleToDoughWeight, stdRecipe, sumPercentages, List.foldl]

/-- C2 (amended to non-standard recipes): for every non-standard recipe with
positive percentage sum and non-negative target `d`, rescaling sets
`totalFlourGrams` to `(d / sum) * 100`, keeps the ingredients, and the
resulting dough weight is exactly `d`; the spec scenario (rescale the 1670 g
recipe to 835) yields `totalFlourGrams = 500` and Water grams 375. -/
theorem c2_rescale_to_dough_weight (r : Recipe) (d : ℚ)
    (hstd : r.isStandard = false)
    (hsum : 0 < sumPercentages r.ingredients) (hd : 0 ≤ d) :
    (rescaleToDoughWeight r d).totalFlourGrams = d / sumPercentages r.ingredients * 100 ∧
    (rescaleToDoughWeight r d).ingredients = r.ingredients ∧
    totalDoughWeight (rescaleToDoughWeight r d) = d ∧
    (rescaleToDoughWeight scenarioRecipe 835).totalFlourGrams = 500 ∧
    ingredientGrams (rescaleToDoughWeight scenarioRecipe 835) ⟨"Water", 75⟩ = 375 := by
  have hne : sumPercentages r.ingredients ≠ 0 := ne_of_gt hsum
  have hmax : max 0 d = d := max_eq_right hd
  have hsc : (rescaleToDoughWeight scenarioRecipe 835).totalFlourGrams = 500 := by
    norm_num [rescaleToDoughWeight, scenarioRecipe, sumPercentages, List.foldl]
  refine ⟨?_, ?_, ?_, hsc, ?_⟩
  · simp [rescaleToDoughWeight, hstd, if_pos hsum, hmax]
  · simp [rescaleToDoughWeight, hstd, if_pos hsum]
  · simp [totalDoughWeight, rescaleToDoughWeight, hstd, if_pos hsum, hmax]
    field_simp
    ring
  · norm_num [ingredientGrams, hsc]

/-- C2 witness: rescaling the concrete scenario recipe to 835. -/
theorem c2_witness :
    (rescaleToDoughWeight scenarioRecipe 835).totalFlourGrams
      = 835 / sumPercentages scenarioRecipe.ingredients * 100 :=
  (c2_rescale_to_dough_weight scenarioRecipe 835 rfl
      (by rw [sumPercentages_scenario]; norm_num) (by norm_num)).1

/-- C3: on a recipe with `isStandard = true`, `setIngredientPercentage`,
`addIngredient` and `removeIngredient` all return the input recipe with
every field unchanged, for every index and percentage argument. -/
theorem c3_standard_recipes_immutable (r : Recipe) (index : ℤ) (value : ℚ)
    (h : r.isStandard = true) :
    setIngredientPercentage r index value = r ∧
    addIngredient r = r ∧
    removeIngredient r index = r := by
  refine ⟨?_, ?_, ?_⟩ <;> simp [setIngredientPercentage, addIngredient, removeIngredient, h]

/-- C3 witness: mutating the built-in `std-1` recipe is a no-op. -/
theorem c3_witness :
    setIngredientPercentage stdRecipe 0 50 = stdRecipe ∧
    addIngredient stdRecipe = stdRecipe ∧
    removeIngredient stdRecipe 0 = stdRecipe :=
  c3_standard_recipes_immutable stdRecipe 0 50 rfl

/-- C4 counterexample: the claim says out-of-range mutation fails with an
`IndexOutOfRange` error, but the code has no bounds check and no throw path:
on the non-standard scenario recipe (3 ingredients), `removeIngredient` at
index 5 silently returns the recipe unchanged, and `setIngredientPercentage`
at index -1 does the same — both succeed with a recipe instead of failing. -/
theorem c4_counterexample :
    removeIngredient scenarioRecipe 5 = scenarioRecipe ∧
    setIngredientPercentage scenarioRecipe (-1) 50 = scenarioRecipe := by
  constructor
  · simp [removeIngredient, scenarioRecipe, filterIndexNe]
  · simp [setIngredientPercentage, scenarioRecipe]

/-- C4 (amended): for every non-standard recipe and out-of-range index, the
mutation handlers are silent no-ops rather than failures: `removeIngredient`
returns the recipe unchanged for any index `< 0` or `>= length(ingredients)`,
and `setIngredientPercentage` returns it unchanged for any index `< 0`
(for an index past the end it silently writes past the end of the array). -/
theorem c4_out_of_range_silent (r : Recipe) (index : ℤ) (value : ℚ)
    (hstd : r.isStandard = false)
    (hoob : index < 0 ∨ (r.ingredients.length : ℤ) ≤ index) :
    removeIngredient r index = r ∧
    (index < 0 → setIngredientPercentage r index value = r) := by
  constructor
  · have hkeep : filterIndexNe r.ingredients 0 index = r.ingredients := by
      rcases hoob with h | h
      · exact filterIndexNe_of_lt r.ingredients 0 index (by omega)
      · exact filterIndexNe_of_ge r.ingredients 0 index (by omega)
    rcases r with ⟨rid, rnm, rds, rtfg, rings, rstd⟩
    simp only [Recipe.isStandard] at hstd
    subst hstd
    simp only [Recipe.ingredients] at hkeep
    simp [removeIngredient, hkeep]
  · intro hneg
    simp [setIngredientPercentage, hstd, hneg]

/-- C4 witness: removing index 7 from a concrete empty-ingredient recipe. -/
theorem c4_witness : removeIngredient emptyRecipe 7 = emptyRecipe :=
  (c4_out_of_range_silent emptyRecipe 7 0 rfl (Or.inr (by norm_num [emptyRecipe]))).1

/-- C5 counterexample: the claim says adapter output with a non-positive
`totalFlourGrams` is rejected, but the validation in `parseRecipeFromText`
only checks that `totalFlourGrams` has the JavaScript number type: the output with
`totalFlourGrams = -5` (name "Bread", empty ingredient array) is accepted. -/
theorem c5_counterexample :
    validateParsedRecipe negativeFlourParsed = Except.ok negativeFlourParsed ∧
    negativeFlourParsed.totalFlourGrams = JSVal.vnum (-5) := by
  constructor
  · rfl
  · rfl

/-- C5 (amended): the validation accepts adapter output exactly when `name`
is truthy (in particular non-empty), `totalFlourGrams` is a number (of any
sign), and `ingredients` is an array (its elements are not inspected);
the spec scenario with an empty name is rejected with the parse error. -/
theorem c5_validation (p : ParsedRecipe) :
    (validateParsedRecipe p).isOk
      = (p.name.truthy && p.totalFlourGrams.isNumber && p.ingredients.isArray) ∧
    validateParsedRecipe emptyNameParsed
      = Except.error "AI model returned a response with an invalid format." := by
  constructor
  · cases hA : p.name.truthy <;> cases hB : p.totalFlourGrams.isNumber <;>
      cases hC : p.ingredients.isArray <;>
      simp [validateParsedRecipe, hA, hB, hC, Except.isOk, Except.toBool]
  · rfl

/-- C6: when the percentage sum is 0, `rescaleToDoughWeight` returns the
input recipe unchanged; and for every recipe the desired dough weight is
clamped to be non-negative before any scaling (the result at `d` equals the
result at `max 0 d`). -/
theorem c6_zero_sum_noop_and_clamp (r : Recipe) (d : ℚ) :
    (sumPercentages r.ingredients = 0 → rescaleToDoughWeight r d = r) ∧
    rescaleToDoughWeight r d = rescaleToDoughWeight r (max 0 d) := by
  constructor
  · intro h
    simp [rescaleToDoughWeight, h]
  · have hm : max 0 (max 0 d) = max 0 d := by rw [← max_assoc, max_self]
    simp [rescaleToDoughWeight, hm]

/-- C6 witness: rescaling a concrete zero-percentage recipe is a no-op. -/
theorem c6_witness : rescaleToDoughWeight emptyRecipe 5 = emptyRecipe :=
  (c6_zero_sum_noop_and_clamp emptyRecipe 5).1 rfl

/-- C7 counterexample: the claim says `addIngredient` appends an entry named
by its catalog-name argument, but the handler takes no name argument and
always appends the entry with name "Water" and percentage 0: adding to the scenario
recipe never yields a trailing Salt entry (Salt is a catalog name), it
yields a trailing Water entry. -/
theorem c7_counterexample :
    (addIngredient scenarioRecipe).ingredients
        ≠ scenarioRecipe.ingredients ++ [⟨"Salt", 0⟩] ∧
    (addIngredient scenarioRecipe).ingredients
        = scenarioRecipe.ingredients ++ [⟨"Water", 0⟩] := by
  constructor
  · simp [addIngredient, scenarioRecipe]
  · simp [addIngredient, scenarioRecipe]

/-- C7 (amended): on every non-standard recipe, `addIngredient` appends the
fixed entry with name "Water" and percentage 0 at the end of the ingredient
sequence, leaving all other fields unchanged. -/
theorem c7_add_ingredient (r : Recipe) (hstd : r.isStandard = false) :
    addIngredient r = { r with ingredients := r.ingredients ++ [⟨"Water", 0⟩] } := by
  simp [addIngredient, hstd]

/-- C7 witness: adding to the concrete scenario recipe. -/
theorem c7_witness :
    addIngredient scenarioRecipe
      = { scenarioRecipe with ingredients := scenarioRecipe.ingredients ++ [⟨"Water", 0⟩] } :=
  c7_add_ingredient scenarioRecipe rfl

/-- C8 counterexample: the claim says deleting a standard recipe id fails,
but `handleDeleteRecipe` filters the id out of the in-memory list without
any standard-recipe check: deleting `std-1` from a signed-in state removes
the built-in recipe from the list instead of failing. -/
theorem c8_counterexample :
    (handleDeleteRecipe demoState "std-1").recipes = [userRecipe] ∧
    demoState.recipes = [stdRecipe, userRecipe] := by
  constructor
  · simp [handleDeleteRecipe, demoState, stdRecipe, userRecipe, saveUserRecipes]
  · rfl

/-- C8 (amended): `handleDeleteRecipe` is a no-op when no user is signed in;
with a signed-in user, when the id does not belong to any non-standard
recipe in the list and the persisted value for the user matches the
non-standard part of the list, the persisted user-recipe value is left
unchanged (the delete of an absent id is a silent no-op on the store, not a
failure; a standard id is nevertheless removed from the in-memory list). -/
theorem c8_delete_absent_preserves_store (s : AppState) (recipeId : String) :
    (s.user = none → handleDeleteRecipe s recipeId = s) ∧
    (∀ u, s.user = some u →
      (∀ r ∈ s.recipes, r.isStandard = false → r.id ≠ recipeId) →
      getItem s.store (storageKey u) = some (s.recipes.filter (fun r => !r.isStandard)) →
      getItem (handleDeleteRecipe s recipeId).store (storageKey u)
        = getItem s.store (storageKey u)) := by
  constructor
  · intro h
    simp [handleDeleteRecipe, h]
  · intro u hu hids hinv
    have hfilter :
        (s.recipes.filter (fun r => r.id ≠ recipeId)).filter (fun r => !r.isStandard)
          = s.recipes.filter (fun r => !r.isStandard) := by
      rw [List.filter_filter]
      apply List.filter_congr
      intro r hr
      cases hstd : r.isStandard with
      | true => simp [hstd]
      | false => simp [hstd, hids r hr hstd]
    simp only [handleDeleteRecipe, hu, saveUserRecipes]
    rw [getItem_setItem, hfilter, hinv]

/-- C8 witness: deleting the absent id "ghost" from the concrete signed-in
state leaves the persisted user-recipe value unchanged. -/
theorem c8_witness :
    getItem (handleDeleteRecipe demoState "ghost").store (storageKey demoUser)
      = getItem demoState.store (storageKey demoUser) :=
  (c8_delete_absent_preserves_store demoState "ghost").2 demoUser rfl
    (by decide) (by rfl)

/-- C9: a save (and likewise an import) attempted while no user is signed in
returns the state unchanged together with a user-facing sign-in prompt; the
handlers return normally, they do not throw. -/
theorem c9_unauthenticated_save_noop (s : AppState) (rec : Recipe)
    (d : ImportedRecipeData) (now : ℕ) (h : s.user = none) :
    handleSaveRecipe s rec = (s, some "Please log in to save changes.") ∧
    handleImportSuccess s d now
      = (s, some "Please log in to import and save a new recipe.") := by
  constructor
  · simp [handleSaveRecipe, h]
  · simp [handleImportSuccess, h]

/-- C9 witness: saving and importing in the concrete signed-out state. -/
theorem c9_witness :
    handleSaveRecipe guestState userRecipe
      = (guestState, some "Please log in to save changes.") ∧
    handleImportSuccess guestState demoImport 42
      = (guestState, some "Please log in to import and save a new recipe.") :=
  c9_unauthenticated_save_noop guestState userRecipe demoImport 42 rfl

/-- C10: opening a recipe in the detail view rescales the working edit copy:
when the percentage sum is positive, its `totalFlourGrams` becomes
`(1000 / sum) * 100` — so the displayed dough weight is exactly 1000 g,
regardless of `isStandard` — while ingredients and all other fields are
kept (the stored recipe itself is untouched: `initEditedRecipe` is a pure
function of the copy); when the sum is 0 the stored `totalFlourGrams` is
kept. -/
theorem c10_init_edited_recipe (r : Recipe) :
    (0 < sumPercentages r.ingredients →
      (initEditedRecipe r).totalFlourGrams = 1000 / sumPercentages r.ingredients * 100 ∧
      totalDoughWeight (initEditedRecipe r) = 1000 ∧
      (initEditedRecipe r).ingredients = r.ingredients ∧
      (initEditedRecipe r).id = r.id ∧
      (initEditedRecipe r).name = r.name ∧
      (initEditedRecipe r).description = r.description ∧
      (initEditedRecipe r).isStandard = r.isStandard) ∧
    (sumPercentages r.ingredients = 0 → initEditedRecipe r = r) := by
  constructor
  · intro h
    have hne : sumPercentages r.ingredients ≠ 0 := ne_of_gt h
    refine ⟨?_, ?_, ?_, ?_, ?_, ?_, ?_⟩ <;>
      simp [initEditedRecipe, totalDoughWeight, if_pos h]
    field_simp
    ring
  · intro h
    simp [initEditedRecipe, h]

/-- C10 witness: opening the concrete scenario recipe shows a 1000 g dough. -/
theorem c10_witness : totalDoughWeight (initEditedRecipe scenarioRecipe) = 1000 :=
  ((c10_init_edited_recipe scenarioRecipe).1
    (by rw [sumPercentages_scenario]; norm_num)).2.1

end BreadRecipes
